import Mathlib

/-!
Verification development for the borium demos.

`Demo` embeds `llm_plus_executor_demo.py`: a time-reference resolver over
Europe/London timestamps, the pandas aggregation of `compute_compare_y_vs_lastweekavg`,
the inline comparison of `main`, the JSON-recovery of `call_ollama_json`, and the
dispatch/exit behaviour of `main`.  `Playground` embeds the history handling of
`ollama_playground.py`.

Conventions of the embedding:
* instants are whole hours since 1970-01-01 00:00 UTC (every quantity the code
  manipulates — local midnights, `Timedelta` days, the one-hour DST offset — is a
  whole number of hours, and a finer resolution changes nothing below);
* calendar dates are day numbers since 1970-01-01 (a Thursday);
* float amounts are modelled as exact rationals;
* Europe/London is modelled by the current UK rule (GMT, with BST between 01:00 UTC
  of the last Sundays of March and October), extended to all years.  `zoneinfo`
  draws old years from historical tables, but the demo only evaluates "now".
-/

namespace Demo

/-- Day number of 1 January of year `y`, in days since 1970-01-01 (day 0):
proleptic Gregorian leap rule (every 4th year, except centuries off the 400 cycle).
Int `/` is Euclidean division, which agrees with floor division here. -/
def jan1 (y : Int) : Int :=
  365 * y + (y - 1) / 4 - (y - 1) / 100 + (y - 1) / 400 - 719527

/-- The year containing day `d`: a linear estimate (400-year Gregorian cycle is
146097 days), corrected by at most one step. -/
def yearOfDay (d : Int) : Int :=
  let y0 := 1970 + 400 * d / 146097
  if d < jan1 y0 then y0 - 1 else if jan1 (y0 + 1) ≤ d then y0 + 1 else y0

/-- Gregorian leap-year test. -/
def isLeap (y : Int) : Bool :=
  decide (y % 4 = 0 ∧ (y % 100 ≠ 0 ∨ y % 400 = 0))

/-- Day number of the last Sunday on or before day `d` (day 0 was a Thursday, so
`d` is a Sunday iff `(d + 4) % 7 = 0`). -/
def lastSundayOnOrBefore (d : Int) : Int := d - (d + 4) % 7

/-- Day number of 31 March of year `y`. -/
def mar31 (y : Int) : Int := jan1 y + 89 + (if isLeap y then 1 else 0)

/-- Day number of 31 October of year `y`. -/
def oct31 (y : Int) : Int := jan1 y + 303 + (if isLeap y then 1 else 0)

/-- The BST start day of year `y`: last Sunday of March. -/
def springDay (y : Int) : Int := lastSundayOnOrBefore (mar31 y)

/-- The BST end day of year `y`: last Sunday of October. -/
def fallDay (y : Int) : Int := lastSundayOnOrBefore (oct31 y)

/-- UTC instant (hours) at which BST starts in year `y`: 01:00 UTC. -/
def springInstant (y : Int) : Int := 24 * springDay y + 1

/-- UTC instant (hours) at which BST ends in year `y`: 01:00 UTC. -/
def fallInstant (y : Int) : Int := 24 * fallDay y + 1

/-- Europe/London daylight-saving test for a UTC instant `t`. -/
def isDST (t : Int) : Bool :=
  let y := yearOfDay (t / 24)
  decide (springInstant y ≤ t ∧ t < fallInstant y)

/-- Local wall clock (hours) of a UTC instant. -/
def utcToLocal (t : Int) : Int := t + (if isDST t then 1 else 0)

/-- Local calendar date of a UTC instant: what `.date()` returns on a
Europe/London-aware pandas timestamp. -/
def localDateOf (t : Int) : Int := utcToLocal t / 24

/-- `pd.Timestamp(d, tz=ZoneInfo("Europe/London"))`: the UTC instant of local
midnight of day `d`.  Midnight of `d` falls in BST exactly when
`springDay < d ≤ fallDay` of `d`'s year, both transitions being later than
midnight in local time. -/
def midnightUTC (d : Int) : Int :=
  let y := yearOfDay d
  24 * d - (if springDay y < d ∧ d ≤ fallDay y then 1 else 0)

/-- pandas `.normalize()` on a Europe/London-aware timestamp: local midnight of
the local date. -/
def normalizeTs (t : Int) : Int := midnightUTC (localDateOf t)

/-- Python `date.weekday()`: Monday = 0 … Sunday = 6. -/
def weekday (d : Int) : Int := (d + 3) % 7

/-- A timestamp cell produced by `load_table`'s `pd.to_datetime`: an instant in
hours (UTC when `aware`, wall clock when naive) plus the tz-awareness flag.
Plain spreadsheet dates parse tz-naive; the window bounds of the demo are always
tz-aware. -/
structure PdTs where
  t : Int
  aware : Bool
  deriving DecidableEq

/-- One row of the frame `load_table` returns: a timestamp and an amount. -/
structure Record where
  date : PdTs
  amount : ℚ
  deriving DecidableEq

/-- `.dt.date` on one cell: local calendar date for an aware (Europe/London)
value, wall-clock date for a naive value. -/
def tsDate (x : PdTs) : Int := if x.aware then localDateOf x.t else x.t / 24

/-- Line 81: `today = pd.Timestamp.now(tz).normalize()`. -/
def todayTs (now : Int) : Int := normalizeTs now

/-- Line 82: `yday = (today - pd.Timedelta(days=1)).date()`.  `Timedelta`
subtraction on an aware timestamp is absolute time (24 hours), not one calendar
day. -/
def ydayDate (now : Int) : Int := localDateOf (todayTs now - 24)

/-- Line 87: `y_ts = pd.Timestamp(yday, tz=tz)`. -/
def yTs (now : Int) : Int := midnightUTC (ydayDate now)

/-- Line 88: `last_week_end = (y_ts - pd.Timedelta(days=(y_ts.weekday()+1)%7)).normalize()`;
the subtraction is absolute `24·offset` hours. -/
def lastWeekEndTs (now : Int) : Int :=
  normalizeTs (yTs now - 24 * ((weekday (ydayDate now) + 1) % 7))

/-- Line 89: `last_week_start = last_week_end - pd.Timedelta(days=6)` (144 hours). -/
def lastWeekStartTs (now : Int) : Int := lastWeekEndTs now - 144

/-- `.date()` of `last_week_end`, as returned on line 93. -/
def lastWeekEndDate (now : Int) : Int := localDateOf (lastWeekEndTs now)

/-- `.date()` of `last_week_start`, as returned on line 93. -/
def lastWeekStartDate (now : Int) : Int := localDateOf (lastWeekStartTs now)

/-- One cell of the line-90 mask `(df['date']>=last_week_start) & (df['date']<=last_week_end)`.
pandas raises `TypeError` on comparing a tz-naive datetime column with the
tz-aware bounds; both bounds are checked by the same vectorised expression. -/
def recInWindow (startTs endTs : Int) (r : Record) : Except Unit Bool :=
  if r.date.aware then .ok (decide (startTs ≤ r.date.t ∧ r.date.t ≤ endTs))
  else .error ()

/-- The line-90 row filter; a `TypeError` on any row aborts the whole statement. -/
def filterWindow (startTs endTs : Int) : List Record → Except Unit (List Record)
  | [] => .ok []
  | r :: rs =>
    match recInWindow startTs endTs r, filterWindow startTs endTs rs with
    | .error e, _ => .error e
    | .ok _, .error e => .error e
    | .ok b, .ok rest => .ok (if b then r :: rest else rest)

/-- Amount total of the rows with calendar date `d` (one group of line 91's
`lw.groupby(lw['date'].dt.date)['amount'].sum()`). -/
def daySum (rs : List Record) (d : Int) : ℚ :=
  ((rs.filter (fun r => decide (tsDate r.date = d))).map Record.amount).sum

/-- The groupby keys of line 91: the distinct calendar dates of the rows. -/
def dayDates (rs : List Record) : List Int :=
  (rs.map (fun r => tsDate r.date)).dedup

/-- Line 91: `lw.groupby(lw['date'].dt.date)['amount'].sum().mean() if not lw.empty else None`.
The mean of the per-group sums is their total divided by the number of groups. -/
def meanDailySums (rs : List Record) : Option ℚ :=
  if rs.isEmpty then none
  else some (((dayDates rs).map (daySum rs)).sum / ((dayDates rs).length : ℚ))

/-- Lines 79–93, `compute_compare_y_vs_lastweekavg`: yesterday's amount total
(line 84 compares `.dt.date` cells, which never raises), the last-week mean of
daily sums, and the `.date()` pair of the window; propagates the pandas
`TypeError` of line 90. -/
def compute_compare_y_vs_lastweekavg (df : List Record) (now : Int) :
    Except Unit (Option ℚ × Option ℚ × Int × Int) :=
  let yd := ydayDate now
  let aDf := df.filter (fun r => decide (tsDate r.date = yd))
  let a : Option ℚ := if aDf.isEmpty then none else some ((aDf.map Record.amount).sum)
  match filterWindow (lastWeekStartTs now) (lastWeekEndTs now) df with
  | .error e => .error e
  | .ok lw => .ok (a, meanDailySums lw, lastWeekStartDate now, lastWeekEndDate now)

/-- Direction label printed on line 129 (증가 / 감소 / 변동 없음). -/
inductive Direction
  | increase
  | decrease
  | noChange
  deriving DecidableEq

/-- Result of the inline comparison of lines 124–129. -/
inductive CompareOutcome
  | insufficient
  | result (a b diff : ℚ) (pct : Option ℚ) (dir : Direction)
  deriving DecidableEq

/-- Lines 124–129: insufficient data when either aggregate is `None` (`pd.isna`
can fire only on float NaN, which exact rationals cannot produce); otherwise
`diff = a - b`, `pct = (diff / b) * 100` unless `b == 0`, and the sign of `diff`
as the direction. -/
def compareAgg : Option ℚ → Option ℚ → CompareOutcome
  | some a, some b =>
    .result a b (a - b)
      (if b ≠ 0 then some ((a - b) / b * 100) else none)
      (if a - b > 0 then .increase else if a - b < 0 then .decrease else .noChange)
  | _, _ => .insufficient

/-- The observable ways one run of `main` can end. -/
inductive RunOutcome
  | loadEmpty
  | callFailed
  | parseFailed (text : String)
  | crashed
  | insufficientData
  | answered (a b diff : ℚ) (pct : Option ℚ) (dir : Direction)
  | unsupported
  deriving DecidableEq

/-- Process exit status of each outcome (`sys.exit` on lines 105, 112, 114, 126,
135, and the implicit 0 at the end); an uncaught Python exception exits with 1. -/
def exitCode : RunOutcome → Nat
  | .loadEmpty => 1
  | .callFailed => 2
  | .parseFailed _ => 3
  | .crashed => 1
  | .insufficientData => 0
  | .answered _ _ _ _ _ => 0
  | .unsupported => 0

/-- How lines 124–135 surface a comparison. -/
def outcomeOfCompare : CompareOutcome → RunOutcome
  | .insufficient => .insufficientData
  | .result a b diff pct dir => .answered a b diff pct dir

/-- The supported-combination handler, lines 123–135: run the computation (a
pandas `TypeError` becomes an uncaught crash) and present the comparison. -/
def executeCompare (df : List Record) (now : Int) : RunOutcome :=
  match compute_compare_y_vs_lastweekavg df now with
  | .error _ => .crashed
  | .ok (a, b, _, _) => outcomeOfCompare (compareAgg a b)

/-- JSON values as `json.loads` returns them.  Numeric literals are restricted
to integers: the demo's intents carry only strings and objects, and a fraction
or exponent is treated as a parse failure rather than approximated.  Object
members are kept in order; lookups take the last binding of a key, as a Python
dict built by `json.loads` does. -/
inductive Json
  | null
  | bool (b : Bool)
  | num (n : Int)
  | str (s : String)
  | arr (elems : List Json)
  | obj (members : List (String × Json))

/-- JSON insignificant whitespace. -/
def jsonWs : List Char := [' ', '\t', '\n', '\r']

/-- Skip insignificant whitespace. -/
def skipWs : List Char → List Char
  | c :: cs => if c ∈ jsonWs then skipWs cs else c :: cs
  | [] => []

/-- Body of a JSON string literal after the opening quote, with the
single-character escapes (`\uXXXX` does not occur in the demo's texts and is
treated as a parse failure). -/
def parseStringBody : Nat → List Char → List Char → Option (String × List Char)
  | 0, _, _ => none
  | _ + 1, [], _ => none
  | fuel + 1, c :: rest, acc =>
    if c = '"' then some (String.mk acc.reverse, rest)
    else if c = '\\' then
      match rest with
      | [] => none
      | e :: rest2 =>
        let esc : Option Char :=
          if e = '"' then some '"'
          else if e = '\\' then some '\\'
          else if e = '/' then some '/'
          else if e = 'n' then some '\n'
          else if e = 't' then some '\t'
          else if e = 'r' then some '\r'
          else if e = 'b' then some (Char.ofNat 8)
          else if e = 'f' then some (Char.ofNat 12)
          else none
        match esc with
        | some ch => parseStringBody fuel rest2 (ch :: acc)
        | none => none
    else parseStringBody fuel rest (c :: acc)

/-- Decimal value of a digit character. -/
def digitVal (c : Char) : Int := (c.toNat : Int) - 48

/-- Split a leading run of decimal digits. -/
def takeDigits : List Char → (List Char × List Char)
  | c :: cs =>
    if c.isDigit then
      let p := takeDigits cs
      (c :: p.1, p.2)
    else ([], c :: cs)
  | [] => ([], [])

/-- Value of a digit run. -/
def digitsToInt (ds : List Char) : Int :=
  ds.foldl (fun acc c => acc * 10 + digitVal c) 0

/-- A JSON integer literal: optional minus, no leading zeros; a following `.`,
`e` or `E` (a float literal) is a parse failure rather than a mis-read. -/
def parseNumber (cs : List Char) : Option (Json × List Char) :=
  let p := match cs with
    | '-' :: rest => (true, rest)
    | _ => (false, cs)
  match takeDigits p.2 with
  | ([], _) => none
  | (d :: ds, rest) =>
    if d = '0' ∧ ds ≠ [] then none
    else
      let v : Int := digitsToInt (d :: ds)
      let v := if p.1 then -v else v
      match rest with
      | c :: _ => if c = '.' ∨ c = 'e' ∨ c = 'E' then none else some (.num v, rest)
      | [] => some (.num v, [])

mutual

/-- Fuelled recursive-descent JSON value parser (`jsonLoadsL` supplies ample
fuel; running out models nothing and cannot happen on the inputs used here). -/
def parseValue : Nat → List Char → Option (Json × List Char)
  | 0, _ => none
  | fuel + 1, cs =>
    match skipWs cs with
    | [] => none
    | c :: rest =>
      if c = '"' then
        match parseStringBody fuel rest [] with
        | some (s, r) => some (.str s, r)
        | none => none
      else if c = '\x7b' then parseObjBody fuel rest
      else if c = '[' then parseArrBody fuel rest
      else if c = 't' then
        match rest with
        | 'r' :: 'u' :: 'e' :: r => some (.bool true, r)
        | _ => none
      else if c = 'f' then
        match rest with
        | 'a' :: 'l' :: 's' :: 'e' :: r => some (.bool false, r)
        | _ => none
      else if c = 'n' then
        match rest with
        | 'u' :: 'l' :: 'l' :: r => some (.null, r)
        | _ => none
      else if c = '-' ∨ c.isDigit then parseNumber (c :: rest)
      else none

/-- Object members after the opening brace. -/
def parseObjBody : Nat → List Char → Option (Json × List Char)
  | 0, _ => none
  | fuel + 1, cs =>
    match skipWs cs with
    | '\x7d' :: rest => some (.obj [], rest)
    | other => parseMembers fuel other []

/-- One or more `"key": value` members, accumulated in order. -/
def parseMembers : Nat → List Char → List (String × Json) → Option (Json × List Char)
  | 0, _, _ => none
  | fuel + 1, cs, acc =>
    match skipWs cs with
    | '"' :: rest =>
      match parseStringBody fuel rest [] with
      | none => none
      | some (k, r1) =>
        match skipWs r1 with
        | ':' :: r2 =>
          match parseValue fuel r2 with
          | none => none
          | some (v, r3) =>
            match skipWs r3 with
            | ',' :: r4 => parseMembers fuel r4 ((k, v) :: acc)
            | '\x7d' :: r4 => some (.obj ((k, v) :: acc).reverse, r4)
            | _ => none
        | _ => none
    | _ => none

/-- Array elements after the opening bracket. -/
def parseArrBody : Nat → List Char → Option (Json × List Char)
  | 0, _ => none
  | fuel + 1, cs =>
    match skipWs cs with
    | ']' :: rest => some (.arr [], rest)
    | other => parseElems fuel other []

/-- One or more array elements, accumulated in order. -/
def parseElems : Nat → List Char → List Json → Option (Json × List Char)
  | 0, _, _ => none
  | fuel + 1, cs, acc =>
    match parseValue fuel cs with
    | none => none
    | some (v, r1) =>
      match skipWs r1 with
      | ',' :: r2 => parseElems fuel r2 (v :: acc)
      | ']' :: r2 => some (.arr (v :: acc).reverse, r2)
      | _ => none

end

/-- `json.loads` on a character list: one complete JSON value, no trailing
garbage beyond whitespace. -/
def jsonLoadsL (cs : List Char) : Option Json :=
  match parseValue (2 * cs.length + 16) cs with
  | some (v, rest) => if (skipWs rest).isEmpty then some v else none
  | none => none

/-- `json.loads` on a string. -/
def jsonLoads (s : String) : Option Json := jsonLoadsL s.data

/-- Python `str.strip()` whitespace set. -/
def pyWsChars : List Char := [' ', '\t', '\n', '\r', '\x0b', '\x0c']

/-- Python `str.strip(chars)`: drop characters of the set from both ends. -/
def stripChars (cset : List Char) (cs : List Char) : List Char :=
  ((cs.dropWhile (· ∈ cset)).reverse.dropWhile (· ∈ cset)).reverse

/-- Line 66 test `text.startswith('\x60\x60\x60')`. -/
def startsWithFence : List Char → Bool
  | '\x60' :: '\x60' :: '\x60' :: _ => true
  | _ => false

/-- Line 69, `text.split('\n', 1)[1]`: everything after the first newline. -/
def dropFirstLine (cs : List Char) : List Char := (cs.dropWhile (· ≠ '\n')).drop 1

/-- Line 68 test `'\n' in text`. -/
def containsNewline (cs : List Char) : Bool := cs.any (· = '\n')

/-- Lines 64–69: strip the decoded stdout, then, when it starts with a code
fence, strip backticks/spaces/newlines from both ends and drop the first line
whenever the stripped text still contains a newline. -/
def ollamaPreprocess (raw : String) : List Char :=
  let t0 := stripChars pyWsChars raw.data
  if startsWithFence t0 then
    let t1 := stripChars ['\x60', ' ', '\n'] t0
    if containsNewline t1 then dropFirstLine t1 else t1
  else t0

/-- Line 74, `text[text.index('\x7b') : text.rindex('\x7d') + 1]`; `none`
models the `ValueError` of `index`/`rindex` when a brace is missing. -/
def braceSlice (cs : List Char) : Option (List Char) :=
  if '\x7b' ∈ cs ∧ '\x7d' ∈ cs then
    let i := cs.findIdx (· = '\x7b')
    let j := cs.length - 1 - cs.reverse.findIdx (· = '\x7d')
    some ((cs.drop i).take (j + 1 - i))
  else none

/-- Lines 61–77 of `call_ollama_json`, after the subprocess: preprocess, strict
parse, then the brace-substring rescue, else the `ValueError` (modelled by its
payload: the processed text the f-string interpolates). -/
def call_ollama_json (raw : String) : Except String Json :=
  let t := ollamaPreprocess raw
  match jsonLoadsL t with
  | some v => .ok v
  | none =>
    match braceSlice t with
    | some sub =>
      match jsonLoadsL sub with
      | some v => .ok v
      | none => .error (String.mk t)
    | none => .error (String.mk t)

/-- Python dict lookup on members built by `json.loads`: the last binding of a
duplicated key wins. -/
def lookupLast (kvs : List (String × Json)) (k : String) : Option Json :=
  match kvs with
  | [] => none
  | (k1, v) :: rest =>
    match lookupLast rest k with
    | some r => some r
    | none => if k1 = k then some v else none

/-- Python `x == "s"` / `x in ["s", …]` on a `dict.get` result: only an equal
string compares true. -/
def isStr (s : String) : Option Json → Bool
  | some (.str t) => t = s
  | _ => false

/-- Lines 120–137: the dispatcher.  `parsed.get(...)` on a non-dict value
raises `AttributeError` (an uncaught crash), as does `t.get(...)` when the
`time` member is present but not an object; `parsed.get('time', \x7b\x7d)`
defaults a missing `time` to an empty dict. -/
def dispatch (df : List Record) (now : Int) (parsed : Json) : RunOutcome :=
  match parsed with
  | .obj kvs =>
    if isStr ("compare") (lookupLast kvs ("intent"))
        && (isStr ("sales") (lookupLast kvs ("metric"))
            || isStr ("sales_amount") (lookupLast kvs ("metric"))) then
      match (lookupLast kvs ("time")).getD (.obj []) with
      | .obj tkvs =>
        if isStr ("yesterday") (lookupLast tkvs ("a"))
            && (isStr ("last_week_avg") (lookupLast tkvs ("b"))
                || isStr ("lastweek_avg") (lookupLast tkvs ("b"))
                || isStr ("last_week_average") (lookupLast tkvs ("b"))) then
          executeCompare df now
        else .unsupported
      | _ => .crashed
    else .unsupported
  | _ => .crashed

/-- The result of the external `ollama run` subprocess as `main` sees it:
a `CalledProcessError` with its stderr, or the decoded stdout. -/
inductive CallResult
  | failed (stderr : String)
  | output (stdout : String)

/-- Lines 102–137 of `main`, given the loaded frame, the subprocess result and
the clock: an empty frame exits 1 (line 105); a `CalledProcessError` exits 2
(line 112); unrecoverable model text exits 3 (line 114); otherwise dispatch. -/
def main (df : List Record) (call : CallResult) (now : Int) : RunOutcome :=
  if df.isEmpty then .loadEmpty
  else
    match call with
    | .failed _ => .callFailed
    | .output text =>
      match call_ollama_json text with
      | .error t => .parseFailed t
      | .ok parsed => dispatch df now parsed

end Demo

namespace Playground

/-- `build_prompt` of ollama_playground.py (lines 32–40): optional SYSTEM
block, then the history as `ROLE:\ncontent\n` blocks joined by newlines, plus
the JSON-mode tail. -/
def build_prompt (systemMsg : String) (history : List (String × String))
    (jsonMode : Bool) : String :=
  let sysBlock := if systemMsg = "" then "" else "SYSTEM:\n" ++ systemMsg ++ "\n\n"
  let conv := history.map (fun rc => rc.1.toUpper ++ ":\n" ++ rc.2 ++ "\n")
  let prompt := sysBlock ++ String.intercalate "\n" conv
  if jsonMode then prompt ++ "\n(Respond ONLY with valid JSON. No extra text.)\n"
  else prompt

/-- Lines 128–138 of the playground loop, one normal user turn: append the user
message, build the prompt from the updated history, call the model; on any
exception print the error and `history.pop()` the appended message; on success
append the assistant reply. -/
def processTurn (systemMsg : String) (jsonMode : Bool)
    (call : String → Except String String)
    (history : List (String × String)) (user : String) : List (String × String) :=
  let h1 := history ++ [(("user"), user)]
  match call (build_prompt systemMsg h1 jsonMode) with
  | .error _ => h1.dropLast
  | .ok reply => h1 ++ [(("assistant"), reply)]

end Playground

namespace Demo

/-! Specification-side definitions, for comparing the code against the claims. -/

/-- The claimed window-end formula, at the calendar-date level: with
`yesterday := now's local date - 1`, the Sunday `((weekday(yesterday)+1) mod 7)`
days before `yesterday`. -/
def claimLastWeekEnd (now : Int) : Int :=
  let y := localDateOf now - 1
  y - (weekday y + 1) % 7

/-- The aggregate as the specification words it: group the rows by calendar
date, sum the amounts per date, and take the arithmetic mean of those per-date
sums. -/
def specMeanDailySums (rs : List Record) : Option ℚ :=
  if rs = [] then none
  else
    let dset := (rs.map (fun r => tsDate r.date)).toFinset
    some ((∑ d in dset, daySum rs d) / (dset.card : ℚ))

/-- The contrasting wrong reading the specification warns against: the mean of
the individual record amounts. -/
def meanOfAmounts (rs : List Record) : Option ℚ :=
  if rs = [] then none
  else some ((rs.map Record.amount).sum / (rs.length : ℚ))

/-- Whether an opening fence carries a language tag: something other than
spaces or backticks before the first newline. -/
def fenceLangTag (t0 : List Char) : Bool :=
  ((t0.dropWhile (· = '\x60')).takeWhile (· ≠ '\n')).any
    (fun c => ¬(c = ' ' ∨ c = '\x60'))

/-- The parsing algorithm exactly as the claim words it: drop the first line
only when the fence carried a language tag, and report the original text on
failure. -/
def c5ClaimParse (raw : String) : Except String Json :=
  let t0 := stripChars pyWsChars raw.data
  let t1 :=
    if startsWithFence t0 then
      let s := stripChars ['\x60', ' ', '\n'] t0
      if fenceLangTag t0 then dropFirstLine s else s
    else t0
  match jsonLoadsL t1 with
  | some v => .ok v
  | none =>
    match braceSlice t1 with
    | some sub =>
      match jsonLoadsL sub with
      | some v => .ok v
      | none => .error raw
    | none => .error raw

/-- The amended algorithm: the same preprocessing, then an ordered
first-success-wins list of attempts (strict parse, then brace substring), the
failure carrying the preprocessed text. -/
def c5AmendedParse (raw : String) : Except String Json :=
  let t := ollamaPreprocess raw
  match [jsonLoadsL t, (braceSlice t).bind jsonLoadsL].findSome? id with
  | some v => .ok v
  | none => .error (String.mk t)

/-- A well-formed intent per the wire schema: a JSON object whose `time`
member, when present, is itself an object. -/
def wellFormedIntent (parsed : Json) : Bool :=
  match parsed with
  | .obj kvs =>
    match (lookupLast kvs ("time")).getD (.obj []) with
    | .obj _ => true
    | _ => false
  | _ => false

/-- The claim's enumeration of the one wired combination:
`intent="compare"`, `metric` ∈ {sales, sales_amount}, `time.a="yesterday"`,
`time.b` one of the three accepted synonyms. -/
def supportedIntent (parsed : Json) : Bool :=
  match parsed with
  | .obj kvs =>
    match (lookupLast kvs ("time")).getD (.obj []) with
    | .obj tkvs =>
      isStr ("compare") (lookupLast kvs ("intent"))
      && (isStr ("sales") (lookupLast kvs ("metric"))
          || isStr ("sales_amount") (lookupLast kvs ("metric")))
      && isStr ("yesterday") (lookupLast tkvs ("a"))
      && (isStr ("last_week_avg") (lookupLast tkvs ("b"))
          || isStr ("lastweek_avg") (lookupLast tkvs ("b"))
          || isStr ("last_week_average") (lookupLast tkvs ("b")))
    | _ => false
  | _ => false

/-- The outcomes the claims call successful: a numeric answer, the
insufficient-data message, or the not-supported message. -/
def successOutcome : RunOutcome → Bool
  | .insufficientData => true
  | .answered _ _ _ _ _ => true
  | .unsupported => true
  | _ => false

/-! Concrete inputs used by the claims. -/

/-- Four rows in one two-day window: three transactions on 1970-01-01 (hours 0,
5, 10) and one on 1970-01-02, tz-aware. -/
def c2Series : List Record :=
  [⟨⟨0, true⟩, 10⟩, ⟨⟨5, true⟩, 20⟩, ⟨⟨10, true⟩, 30⟩, ⟨⟨26, true⟩, 100⟩]

/-- The end-to-end series: one record on each of the seven consecutive days
1969-12-29 … 1970-01-04 (Monday … Sunday, local midnights, tz-aware), amounts
100 ×6 then 200. -/
def c8Aware : List Record :=
  [⟨⟨-72, true⟩, 100⟩, ⟨⟨-48, true⟩, 100⟩, ⟨⟨-24, true⟩, 100⟩, ⟨⟨0, true⟩, 100⟩,
   ⟨⟨24, true⟩, 100⟩, ⟨⟨48, true⟩, 100⟩, ⟨⟨72, true⟩, 200⟩]

/-- The same series as `pd.to_datetime` loads it from a plain file: tz-naive. -/
def c8Naive : List Record := c8Aware.map (fun r => ⟨⟨r.date.t, false⟩, r.amount⟩)

/-- The extracted intent for the supported question. -/
def c8Json : String :=
  "\x7b\"intent\":\"compare\",\"metric\":\"sales_amount\",\"time\":\x7b\"a\":\"yesterday\",\"b\":\"last_week_avg\"\x7d\x7d"

/-- A reference clock for the concrete runs: 1970-01-05 10:00 UTC (a Monday;
yesterday is Sunday 1970-01-04, the resolved last week is 1969-12-29 …
1970-01-04). -/
def nowJan : Int := 106

/-- A reference clock two days after a spring-forward transition:
2025-04-01 12:00 UTC (day 20179; the transition Sunday is 2025-03-30, day
20177). -/
def nowApr : Int := 24 * 20179 + 12

/-- A model text whose recovered JSON is not an object. -/
def c9List : String := "[1]"

/-- A one-row frame, so that the load-failure branch is not taken. -/
def c9Df : List Record := [⟨⟨0, true⟩, 1⟩]

/-- The fenced multi-line object without a language tag: the input separating
the code from the claimed algorithm. -/
def c5Cex : String := "```\n\x7b\n\x7d\n```"

/-- A JSON object embedded in prose (the specification's own example). -/
def c5Prose : String :=
  "here is your answer: \x7b\"intent\":\"aggregate\",\"metric\":\"sales\",\"time\":\x7b\"a\":\"last_7d\"\x7d\x7d thanks"

/-- The intent c5Prose embeds. -/
def c5ProseJson : Json :=
  .obj [(("intent"), .str ("aggregate")), (("metric"), .str ("sales")),
        (("time"), .obj [(("a"), .str ("last_7d"))])]

/-- A tz-naive record at 15:00 on the window's last day (1970-01-04), and its
tz-aware twin. -/
def c7NaiveRec : Record := ⟨⟨87, false⟩, 5⟩

/-- The tz-aware twin of `c7NaiveRec`. -/
def c7AwareRec : Record := ⟨⟨87, true⟩, 5⟩

end Demo

open Demo Playground

/-! Helper lemmas shared by the claim theorems. -/

/-- The groupby mean of line 91 agrees with the specification's reading: the
arithmetic mean of the per-calendar-date sums. -/
theorem meanDailySums_eq_spec (rs : List Record) :
    meanDailySums rs = specMeanDailySums rs := by
  by_cases h : rs = []
  · subst h; rfl
  · have hne : rs.isEmpty = false := by
      cases rs with
      | nil => exact absurd rfl h
      | cons a l => rfl
    unfold meanDailySums specMeanDailySums dayDates
    rw [hne, if_neg h]
    simp only [Bool.false_eq_true, if_false]
    have hnd := List.nodup_dedup (rs.map (fun r => tsDate r.date))
    have hsum := List.sum_toFinset (daySum rs) hnd
    have hds : (rs.map (fun r => tsDate r.date)).dedup.toFinset
        = (rs.map (fun r => tsDate r.date)).toFinset := by
      apply Finset.ext; intro a
      simp [List.mem_toFinset, List.mem_dedup]
    rw [hds] at hsum
    rw [← hsum, List.card_toFinset]

/-- The supported handler never produces the not-supported outcome. -/
theorem executeCompare_ne_unsupported (df : List Record) (now : Int) :
    executeCompare df now ≠ RunOutcome.unsupported := by
  unfold executeCompare
  cases hc : compute_compare_y_vs_lastweekavg df now with
  | error e => simp
  | ok t =>
    obtain ⟨a, b, s, e⟩ := t
    cases hca : compareAgg a b <;> simp [outcomeOfCompare, hca]

/-- Claim C1 (code bug): the resolver is claimed to return, for every `now`,
the 7-day window ending on the Sunday `((weekday(yesterday)+1) mod 7)` days
before `yesterday = now's date - 1`.  Away from DST transitions it does
(the 1970-01-05 conjuncts), but `Timedelta` subtraction is absolute time, so at
`now` = 2025-04-01 12:00 UTC — two days after the spring-forward Sunday
2025-03-30 (day 20177) — the code returns the window 2025-03-23 … 2025-03-29
(days 20170…20176), which ends on a Saturday, one day short of the claimed
Sunday 2025-03-30. -/
theorem spec_c1_last_week_window :
    springDay 2025 = 20177 ∧ weekday 20177 = 6 ∧
    localDateOf nowApr = 20179 ∧
    ydayDate nowApr = 20178 ∧
    claimLastWeekEnd nowApr = 20177 ∧
    lastWeekEndDate nowApr = 20176 ∧
    weekday 20176 = 5 ∧
    lastWeekStartDate nowApr = 20170 ∧
    ydayDate nowJan = 3 ∧ weekday 3 = 6 ∧
    claimLastWeekEnd nowJan = 3 ∧
    lastWeekEndDate nowJan = 3 ∧ lastWeekStartDate nowJan = -3 :=
  ⟨rfl, rfl, rfl, rfl, rfl, rfl, rfl, rfl, rfl, rfl, rfl, rfl, rfl⟩

/-- Claim C3: when either aggregate is `None` the comparison yields the
insufficient-data outcome — surfaced as the insufficient-data message on a
non-crash path with exit status zero, never as a numeric answer.  (`pd.isna`
covers float NaN, which exact rational amounts cannot produce.) -/
theorem spec_c3_insufficient_data (a b : Option ℚ) (h : a = none ∨ b = none) :
    compareAgg a b = CompareOutcome.insufficient ∧
    outcomeOfCompare (compareAgg a b) = RunOutcome.insufficientData ∧
    exitCode (outcomeOfCompare (compareAgg a b)) = 0 ∧
    ∀ x y d p dir, compareAgg a b ≠ CompareOutcome.result x y d p dir := by
  have he : compareAgg a b = CompareOutcome.insufficient := by
    rcases h with h | h
    · subst h; cases b <;> rfl
    · subst h; cases a <;> rfl
  refine ⟨he, by rw [he]; rfl, by rw [he]; rfl, ?_⟩
  intro x y d p dir hc
  rw [he] at hc
  exact CompareOutcome.noConfusion hc

/-- Witness for C3: both `compare(None, 120)` and `compare(120, None)` are the
insufficient-data outcome. -/
theorem spec_c3_insufficient_data_witness :
    compareAgg none (some 120) = CompareOutcome.insufficient ∧
    compareAgg (some 120) none = CompareOutcome.insufficient :=
  ⟨(spec_c3_insufficient_data none (some 120) (Or.inl rfl)).1,
   (spec_c3_insufficient_data (some 120) none (Or.inr rfl)).1⟩

/-- Claim C4: for non-null aggregates, `diff = a - b`, the direction is the
sign of `diff`, and `pct = (diff / b) * 100` unless `b = 0`, where it is null;
in particular `compare(90, 100)` gives `diff = -10`, `pct = -10`, decrease. -/
theorem spec_c4_compare_formula :
    (∀ x y : ℚ, compareAgg (some x) (some y) =
      CompareOutcome.result x y (x - y)
        (if y ≠ 0 then some ((x - y) / y * 100) else none)
        (if x - y > 0 then Direction.increase
         else if x - y < 0 then Direction.decrease else Direction.noChange)) ∧
    compareAgg (some 90) (some 100) =
      CompareOutcome.result 90 100 (-10) (some (-10)) Direction.decrease := by
  refine ⟨fun x y => rfl, ?_⟩
  norm_num [compareAgg]

/-- Claim C7 (code bug): line 90 is claimed to keep exactly the records whose
calendar date lies in the inclusive window, never failing.  In fact it compares
raw timestamps against the tz-aware midnight bounds: a tz-naive column (what
`pd.to_datetime` produces from a plain file) raises `TypeError` and aborts the
whole computation, and even a tz-aware record dated on the window's last day
(1970-01-04 15:00, calendar date inside the window) is excluded because its
time of day is past midnight. -/
theorem spec_c7_window_filter :
    lastWeekStartTs nowJan = -72 ∧ lastWeekEndTs nowJan = 72 ∧
    lastWeekStartDate nowJan = -3 ∧ lastWeekEndDate nowJan = 3 ∧
    filterWindow (-72) 72 [c7NaiveRec] = Except.error () ∧
    compute_compare_y_vs_lastweekavg [c7NaiveRec] nowJan = Except.error () ∧
    tsDate c7AwareRec.date = 3 ∧
    (-3 : Int) ≤ tsDate c7AwareRec.date ∧ tsDate c7AwareRec.date ≤ 3 ∧
    filterWindow (-72) 72 [c7AwareRec] = Except.ok [] :=
  ⟨rfl, rfl, rfl, rfl, rfl, rfl, rfl, by decide, by decide, rfl⟩

/-- Claim C10: a playground turn whose model call raises leaves the
conversation history exactly as it was — the appended user message is popped
and no assistant message is added. -/
theorem spec_c10_failed_call_reverts (systemMsg : String) (jsonMode : Bool)
    (call : String → Except String String) (history : List (String × String))
    (user e : String)
    (h : call (build_prompt systemMsg (history ++ [(("user"), user)]) jsonMode)
          = Except.error e) :
    processTurn systemMsg jsonMode call history user = history := by
  simp only [processTurn]
  rw [h]
  simp

/-- Witness for C10: a concrete failing call reverts a concrete history. -/
theorem spec_c10_failed_call_reverts_witness :
    processTurn ("") false (fun _ => Except.error ("boom"))
      [(("user"), ("a"))] ("q") = [(("user"), ("a"))] :=
  spec_c10_failed_call_reverts ("") false _ _ ("q") ("boom") rfl

/-- Claim C6: the dispatcher runs the computation exactly for
`intent="compare"`, `metric` ∈ {sales, sales_amount}, `time.a="yesterday"` and
`time.b` one of the three accepted synonyms; every other well-formed intent
(unknown kinds included) gets the informational not-supported message with exit
status zero, never a crash or a silent no-op. -/
theorem spec_c6_dispatch_table (df : List Record) (now : Int) (parsed : Json)
    (h : wellFormedIntent parsed = true) :
    (dispatch df now parsed = executeCompare df now ↔ supportedIntent parsed = true) ∧
    (supportedIntent parsed = false →
      dispatch df now parsed = RunOutcome.unsupported ∧
      exitCode (dispatch df now parsed) = 0) := by
  have hne := executeCompare_ne_unsupported df now
  cases parsed with
  | null => simp [wellFormedIntent] at h
  | bool b => simp [wellFormedIntent] at h
  | num n => simp [wellFormedIntent] at h
  | str s => simp [wellFormedIntent] at h
  | arr xs => simp [wellFormedIntent] at h
  | obj kvs =>
    cases ht : (lookupLast kvs ("time")).getD (Json.obj []) with
    | null => simp [wellFormedIntent, ht] at h
    | bool b => simp [wellFormedIntent, ht] at h
    | num n => simp [wellFormedIntent, ht] at h
    | str s => simp [wellFormedIntent, ht] at h
    | arr xs => simp [wellFormedIntent, ht] at h
    | obj tkvs =>
      have hd : dispatch df now (Json.obj kvs) =
          if supportedIntent (Json.obj kvs) then executeCompare df now
          else RunOutcome.unsupported := by
        simp only [dispatch, supportedIntent, ht]
        cases h1 : isStr ("compare") (lookupLast kvs ("intent")) <;>
          cases h2 : (isStr ("sales") (lookupLast kvs ("metric"))
              || isStr ("sales_amount") (lookupLast kvs ("metric"))) <;>
          cases h3 : isStr ("yesterday") (lookupLast tkvs ("a")) <;>
          cases h4 : (isStr ("last_week_avg") (lookupLast tkvs ("b"))
              || isStr ("lastweek_avg") (lookupLast tkvs ("b"))
              || isStr ("last_week_average") (lookupLast tkvs ("b"))) <;>
          simp [h1, h2, h3, h4]
      refine ⟨?_, ?_⟩
      · rw [hd]
        cases hs : supportedIntent (Json.obj kvs) with
        | true => simp
        | false =>
          simp only [Bool.false_eq_true, if_false]
          constructor
          · intro hcontra; exact absurd hcontra.symm hne
          · intro hcontra; cases hcontra
      · intro hs
        rw [hd, hs]
        simp [exitCode]

/-- Witness for C6: a well-formed but unknown intent kind is dispatched to the
not-supported message with exit status zero. -/
theorem spec_c6_dispatch_table_witness :
    dispatch [] 0 (Json.obj [(("intent"), Json.str ("topN"))]) = RunOutcome.unsupported ∧
    exitCode (dispatch [] 0 (Json.obj [(("intent"), Json.str ("topN"))])) = 0 :=
  (spec_c6_dispatch_table [] 0 (Json.obj [(("intent"), Json.str ("topN"))]) rfl).2 rfl

/-- Counterexample to claim C9: the run is claimed to exit nonzero exactly on
an empty series, a failed model invocation, or model output not recoverable as
JSON.  The output `[1]` is recovered as JSON, the series is nonempty and the
call succeeded — yet the run crashes (uncaught `AttributeError` on
`parsed.get`), which is a nonzero exit. -/
theorem spec_c9_exit_counterexample :
    Demo.main c9Df (CallResult.output c9List) 0 = RunOutcome.crashed ∧
    exitCode RunOutcome.crashed = 1 ∧
    c9Df.isEmpty = false ∧
    call_ollama_json c9List = Except.ok (Json.arr [Json.num 1]) :=
  ⟨rfl, rfl, rfl, rfl⟩

/-- Claim C9 as amended: exit status 0 exactly on an answer, insufficient data,
or an unsupported intent; the empty-series, failed-call and parse-failure
branches exit 1, 2, 3 respectively; any other nonzero exit is an uncaught
crash (recovered JSON not an object, non-object `time` member, or the pandas
`TypeError` of the comparison), which the dispatch of a recovered intent can
produce. -/
theorem spec_c9_exit_codes :
    (∀ (df : List Record) (call : CallResult) (now : Int),
        exitCode (Demo.main df call now) = 0 ↔
        successOutcome (Demo.main df call now) = true) ∧
    (∀ (df : List Record) (call : CallResult) (now : Int),
        df.isEmpty = true → Demo.main df call now = RunOutcome.loadEmpty) ∧
    (∀ (df : List Record) (s : String) (now : Int),
        df.isEmpty = false →
        Demo.main df (CallResult.failed s) now = RunOutcome.callFailed) ∧
    (∀ (df : List Record) (text t : String) (now : Int),
        df.isEmpty = false → call_ollama_json text = Except.error t →
        Demo.main df (CallResult.output text) now = RunOutcome.parseFailed t) ∧
    (∀ (df : List Record) (text : String) (j : Json) (now : Int),
        df.isEmpty = false → call_ollama_json text = Except.ok j →
        Demo.main df (CallResult.output text) now = dispatch df now j) ∧
    exitCode RunOutcome.loadEmpty = 1 ∧ exitCode RunOutcome.callFailed = 2 ∧
    (∀ t, exitCode (RunOutcome.parseFailed t) = 3) ∧
    exitCode RunOutcome.crashed = 1 := by
  refine ⟨?_, ?_, ?_, ?_, ?_, rfl, rfl, fun t => rfl, rfl⟩
  · intro df call now
    cases hm : Demo.main df call now <;> simp [exitCode, successOutcome]
  · intro df call now h
    simp [Demo.main, h]
  · intro df s now h
    simp [Demo.main, h]
  · intro df text t now h hp
    simp [Demo.main, h, hp]
  · intro df text j now h hp
    simp [Demo.main, h, hp]

/-- Witness for C9: the load-failure and call-failure branches at concrete
inputs, plus the success-iff-zero reading at a concrete unsupported run. -/
theorem spec_c9_exit_codes_witness :
    Demo.main [] (CallResult.output ("x")) 0 = RunOutcome.loadEmpty ∧
    Demo.main c9Df (CallResult.failed ("err")) 0 = RunOutcome.callFailed :=
  ⟨spec_c9_exit_codes.2.1 [] (CallResult.output ("x")) 0 rfl,
   spec_c9_exit_codes.2.2.1 c9Df ("err") 0 rfl⟩

/-- Counterexample to claim C5: the claim says the first line after fence
stripping is dropped only when the fence carried a language tag.  On the
untagged fenced multi-line object, the code drops the object's first line and
fails (reporting the mangled text `\x7d`), while the claimed algorithm parses
the object. -/
theorem spec_c5_parse_counterexample :
    call_ollama_json c5Cex = Except.error ("\x7d") ∧
    c5ClaimParse c5Cex = Except.ok (Json.obj []) ∧
    call_ollama_json c5Cex ≠ c5ClaimParse c5Cex := by
  refine ⟨rfl, rfl, ?_⟩
  intro hcontra
  rw [show call_ollama_json c5Cex = Except.error ("\x7d") from rfl,
      show c5ClaimParse c5Cex = Except.ok (Json.obj []) from rfl] at hcontra
  exact Except.noConfusion hcontra

/-- Claim C5 as amended: the parser strips whitespace and a code fence
(dropping the first line whenever the fence-stripped text still contains a
newline), then applies the ordered first-success-wins attempts — strict JSON
parse, then the first-`\x7b`-to-last-`\x7d` substring — and otherwise errors
with the processed text, never a default intent.  The prose-wrapped object
parses, and only via the second attempt. -/
theorem spec_c5_parse_algorithm :
    (∀ raw : String, call_ollama_json raw = c5AmendedParse raw) ∧
    call_ollama_json c5Prose = Except.ok c5ProseJson ∧
    jsonLoadsL (ollamaPreprocess c5Prose) = none := by
  refine ⟨?_, rfl, rfl⟩
  intro raw
  simp only [call_ollama_json, c5AmendedParse]
  cases h1 : jsonLoadsL (ollamaPreprocess raw) with
  | some v => simp [List.findSome?, h1]
  | none =>
    cases h2 : braceSlice (ollamaPreprocess raw) with
    | none => simp [List.findSome?, h1, h2, Option.bind]
    | some sub =>
      cases h3 : jsonLoadsL sub with
      | some v => simp [List.findSome?, h1, h2, h3, Option.bind]
      | none => simp [List.findSome?, h1, h2, h3, Option.bind]

/-- Claim C2: the line-91 aggregate over the window-filtered records is the
arithmetic mean of the per-calendar-date sums — not the mean of the individual
amounts — and is null exactly when no record is in the window; with three
transactions on one day (10+20+30) and one on another (100), it averages the
two day totals (80), while the mean of the four amounts would be 40. -/
theorem spec_c2_mean_of_daily_sums :
    (∀ (startTs endTs : Int) (df lw : List Record),
        filterWindow startTs endTs df = Except.ok lw →
        meanDailySums lw = specMeanDailySums lw ∧
        (meanDailySums lw = none ↔ lw = [])) ∧
    (filterWindow 0 47 c2Series = Except.ok c2Series ∧
     meanDailySums c2Series = some 80 ∧
     meanOfAmounts c2Series = some 40 ∧ (80 : ℚ) ≠ 40) := by
  constructor
  · intro s e df lw _
    refine ⟨meanDailySums_eq_spec lw, ?_⟩
    cases lw with
    | nil => simp [meanDailySums]
    | cons r rs => simp [meanDailySums]
  · refine ⟨rfl, ?_, ?_, by norm_num⟩
    · have hsk : meanDailySums c2Series =
          some ((daySum c2Series 0 + (daySum c2Series 1 + 0)) / ((2 : ℕ) : ℚ)) := rfl
      have h0 : daySum c2Series 0 = 10 + (20 + (30 + 0)) := rfl
      have h1 : daySum c2Series 1 = 100 + 0 := rfl
      rw [hsk, h0, h1]
      norm_num
    · have hsk : meanOfAmounts c2Series =
          some ((10 + (20 + (30 + (100 + 0)))) / ((4 : ℕ) : ℚ)) := rfl
      rw [hsk]
      norm_num

/-- Witness for C2, at the concrete series and window. -/
theorem spec_c2_mean_of_daily_sums_witness :
    meanDailySums c2Series = specMeanDailySums c2Series ∧
    (meanDailySums c2Series = none ↔ c2Series = []) :=
  spec_c2_mean_of_daily_sums.1 0 47 c2Series c2Series rfl

/-- Pipeline evaluation on the tz-aware end-to-end series: the answer is
`a = 200`, `b = 800/7`, `diff = 600/7`, `pct = 75`, increase. -/
theorem main_c8Aware_eval :
    Demo.main c8Aware (CallResult.output c8Json) nowJan =
      RunOutcome.answered 200 (800/7) (600/7) (some 75) Direction.increase := by
  have hmain : Demo.main c8Aware (CallResult.output c8Json) nowJan =
      outcomeOfCompare (compareAgg (some ((200 : ℚ) + 0)) (meanDailySums c8Aware)) := rfl
  have hb : meanDailySums c8Aware = some (800/7) := by
    have hsk : meanDailySums c8Aware =
        some ((daySum c8Aware (-3) + (daySum c8Aware (-2) + (daySum c8Aware (-1) +
          (daySum c8Aware 0 + (daySum c8Aware 1 + (daySum c8Aware 2 +
          (daySum c8Aware 3 + 0))))))) / ((7 : ℕ) : ℚ)) := rfl
    have d1 : daySum c8Aware (-3) = 100 + 0 := rfl
    have d2 : daySum c8Aware (-2) = 100 + 0 := rfl
    have d3 : daySum c8Aware (-1) = 100 + 0 := rfl
    have d4 : daySum c8Aware 0 = 100 + 0 := rfl
    have d5 : daySum c8Aware 1 = 100 + 0 := rfl
    have d6 : daySum c8Aware 2 = 100 + 0 := rfl
    have d7 : daySum c8Aware 3 = 200 + 0 := rfl
    rw [hsk, d1, d2, d3, d4, d5, d6, d7]
    norm_num
  rw [hmain, hb]
  norm_num [compareAgg, outcomeOfCompare]

/-- Pipeline evaluation on the tz-naive twin of the series: the comparison of
line 90 raises and the run crashes. -/
theorem main_c8Naive_eval :
    Demo.main c8Naive (CallResult.output c8Json) nowJan = RunOutcome.crashed := rfl

/-- Counterexample to claim C8: on the seven-day series the code computes
`last_week_avg = 800/7 ≈ 114.29` and `pct = 75`, far from the claimed
`≈ 128.57` and `≈ 55.6` (the claim's own arithmetic: the mean of
`[100×6, 200]` is `800/7`, not `900/7`). -/
theorem spec_c8_counterexample :
    Demo.main c8Aware (CallResult.output c8Json) nowJan =
      RunOutcome.answered 200 (800/7) (600/7) (some 75) Direction.increase ∧
    (12857/100 : ℚ) - 800/7 > 14 ∧ ((75 : ℚ) ≠ 556/10) ∧ (75 : ℚ) - 556/10 > 19 :=
  ⟨main_c8Aware_eval, by norm_num, by norm_num, by norm_num⟩

/-- Claim C8 as amended: with tz-aware records, the end-to-end run on the
seven-day series (last day yesterday = Sunday, the window covering all seven
days) answers `yesterday = 200`, `last_week_avg = 800/7 ≈ 114.29`,
`direction = increase`, `pct = 75`; the same series loaded tz-naive (as a plain
file parses) crashes in the window comparison instead. -/
theorem spec_c8_end_to_end :
    Demo.main c8Aware (CallResult.output c8Json) nowJan =
      RunOutcome.answered 200 (800/7) (600/7) (some 75) Direction.increase ∧
    Demo.main c8Naive (CallResult.output c8Json) nowJan = RunOutcome.crashed :=
  ⟨main_c8Aware_eval, main_c8Naive_eval⟩
